import Mathlib

/-!
Shallow embedding of `addons/main/script_macros_common.hpp` from CBA_A3.

The artifact is a C-style preprocessor header: every macro is a textual
rewrite producing script text for the host engine.  We embed it at two
levels:

1. Textual level: each macro becomes a Lean function from its argument
   texts (and the set of preprocessor flags active at inclusion time) to
   its replacement text, modelled as a `String`.  Replacement text of a
   disabled macro (body a bare comment) is the empty string; whitespace
   runs from line continuations are normalised to single spaces.  A brace
   character inside replacement text is written with the escape \x7b or
   \x7d, a single quote with \x27, a double quote with \x22.  Expansion is
   single-step: nested macro names such as THIS_FILE_ stay literal, as the
   source writes them.
2. Semantic level: for macros whose replacement text is a script fragment
   with a documented runtime meaning (EXPLODE_n, PARAMS_1, IS_x, ISNILS,
   DEPRECATE_SYS, OBSOLETE_SYS, select chains), we give an executable
   model of the produced fragment over an inductive type of engine
   values.
-/

namespace CBA

/-! ### Debug-mode flag cascade, lines 119-132

`DebugFlags` records which of DEBUG_MODE_FULL / DEBUG_MODE_NORMAL /
DEBUG_MODE_MINIMAL were defined before the header is included. -/

structure DebugFlags where
  full : Bool
  normal : Bool
  minimal : Bool
deriving DecidableEq, Repr

/-- Lines 119-121: if DEBUG_MODE_FULL, then also define DEBUG_MODE_NORMAL. -/
def afterFullCascade (c : DebugFlags) : DebugFlags :=
  DebugFlags.mk c.full (c.normal || c.full) c.minimal

/-- Lines 124-126: if DEBUG_MODE_NORMAL, then also define DEBUG_MODE_MINIMAL. -/
def afterNormalCascade (c : DebugFlags) : DebugFlags :=
  DebugFlags.mk c.full c.normal (c.minimal || c.normal)

/-- Lines 129-132: if no debug mode specified, define NORMAL and MINIMAL. -/
def afterDefaultRule (c : DebugFlags) : DebugFlags :=
  if c.minimal then c else DebugFlags.mk c.full true true

/-- The set of debug defines in effect after lines 119-132 have run. -/
def effFlags (c : DebugFlags) : DebugFlags :=
  afterDefaultRule (afterNormalCascade (afterFullCascade c))

/-- No debug mode defined before inclusion. -/
def defaultFlags : DebugFlags := DebugFlags.mk false false false

/-! ### Logging and error macros, lines 157-230 -/

/-- Line 157-161: LOG(MESSAGE) expands to a CBA_fnc_log call when
DEBUG_MODE_FULL is defined, and to nothing otherwise. -/
def LOG (c : DebugFlags) (message : String) : String :=
  if (effFlags c).full then
    "[THIS_FILE_, __LINE__, " ++ message ++ "] call CBA_fnc_log"
  else ""

/-- Line 180-184: WARNING(MESSAGE) expands to a CBA_fnc_log call when
DEBUG_MODE_NORMAL is defined (after the cascade), and to nothing otherwise. -/
def WARNING (c : DebugFlags) (message : String) : String :=
  if (effFlags c).normal then
    "[THIS_FILE_, __LINE__, (\x27WARNING: \x27 + " ++ message ++ ")] call CBA_fnc_log"
  else ""

/-- Line 205-206: ERROR(MESSAGE), unconditional. -/
def ERROR (message : String) : String :=
  "[THIS_FILE_, __LINE__, \x22ERROR\x22, " ++ message ++ "] call CBA_fnc_error;"

/-- Line 229-230: ERROR_WITH_TITLE(TITLE,MESSAGE), unconditional. -/
def ERROR_WITH_TITLE (title message : String) : String :=
  "[THIS_FILE_, __LINE__, " ++ title ++ ", " ++ message ++ "] call CBA_fnc_error;"

/-- Line 249: RETNIL(VARIABLE). -/
def RETNIL (v : String) : String :=
  "if (isNil\x7b" ++ v ++ "\x7d) then \x7bnil\x7d else \x7b" ++ v ++ "\x7d"

/-! ### TRACE_1 .. TRACE_8, lines 278-314 -/

/-- Lines 279-280 / 305: TRACE_1(MESSAGE,A). -/
def TRACE_1 (c : DebugFlags) (message a : String) : String :=
  if (effFlags c).full then
    "[THIS_FILE_, __LINE__, format [\x27%1: A=%2\x27, " ++ message ++ ", "
      ++ RETNIL a ++ "]] call CBA_fnc_log"
  else ""

/-- Lines 282-283 / 306: TRACE_2(MESSAGE,A,B). -/
def TRACE_2 (c : DebugFlags) (message a b : String) : String :=
  if (effFlags c).full then
    "[THIS_FILE_, __LINE__, format [\x27%1: A=%2, B=%3\x27, " ++ message ++ ", "
      ++ RETNIL a ++ ", " ++ RETNIL b ++ "]] call CBA_fnc_log"
  else ""

/-- Lines 285-286 / 307: TRACE_3(MESSAGE,A,B,C). -/
def TRACE_3 (c : DebugFlags) (message a b x3 : String) : String :=
  if (effFlags c).full then
    "[THIS_FILE_, __LINE__, format [\x27%1: A=%2, B=%3, C=%4\x27, " ++ message ++ ", "
      ++ RETNIL a ++ ", " ++ RETNIL b ++ ", " ++ RETNIL x3 ++ "]] call CBA_fnc_log"
  else ""

/-- Lines 288-289 / 308: TRACE_4(MESSAGE,A,B,C,D). -/
def TRACE_4 (c : DebugFlags) (message a b x3 x4 : String) : String :=
  if (effFlags c).full then
    "[THIS_FILE_, __LINE__, format [\x27%1: A=%2, B=%3, C=%4, D=%5\x27, " ++ message ++ ", "
      ++ RETNIL a ++ ", " ++ RETNIL b ++ ", " ++ RETNIL x3 ++ ", " ++ RETNIL x4
      ++ "]] call CBA_fnc_log"
  else ""

/-- Lines 291-292 / 309: TRACE_5(MESSAGE,A,B,C,D,E). -/
def TRACE_5 (c : DebugFlags) (message a b x3 x4 x5 : String) : String :=
  if (effFlags c).full then
    "[THIS_FILE_, __LINE__, format [\x27%1: A=%2, B=%3, C=%4, D=%5, E=%6\x27, "
      ++ message ++ ", " ++ RETNIL a ++ ", " ++ RETNIL b ++ ", " ++ RETNIL x3 ++ ", "
      ++ RETNIL x4 ++ ", " ++ RETNIL x5 ++ "]] call CBA_fnc_log"
  else ""

/-- Lines 294-295 / 310: TRACE_6(MESSAGE,A,B,C,D,E,F). -/
def TRACE_6 (c : DebugFlags) (message a b x3 x4 x5 x6 : String) : String :=
  if (effFlags c).full then
    "[THIS_FILE_, __LINE__, format [\x27%1: A=%2, B=%3, C=%4, D=%5, E=%6, F=%7\x27, "
      ++ message ++ ", " ++ RETNIL a ++ ", " ++ RETNIL b ++ ", " ++ RETNIL x3 ++ ", "
      ++ RETNIL x4 ++ ", " ++ RETNIL x5 ++ ", " ++ RETNIL x6 ++ "]] call CBA_fnc_log"
  else ""

/-- Lines 297-298 / 311: TRACE_7(MESSAGE,A,B,C,D,E,F,G). -/
def TRACE_7 (c : DebugFlags) (message a b x3 x4 x5 x6 x7 : String) : String :=
  if (effFlags c).full then
    "[THIS_FILE_, __LINE__, format [\x27%1: A=%2, B=%3, C=%4, D=%5, E=%6, F=%7, G=%8\x27, "
      ++ message ++ ", " ++ RETNIL a ++ ", " ++ RETNIL b ++ ", " ++ RETNIL x3 ++ ", "
      ++ RETNIL x4 ++ ", " ++ RETNIL x5 ++ ", " ++ RETNIL x6 ++ ", " ++ RETNIL x7
      ++ "]] call CBA_fnc_log"
  else ""

/-- Lines 300-301 / 312: TRACE_8(MESSAGE,A,B,C,D,E,F,G,H). -/
def TRACE_8 (c : DebugFlags) (message a b x3 x4 x5 x6 x7 x8 : String) : String :=
  if (effFlags c).full then
    "[THIS_FILE_, __LINE__, format [\x27%1: A=%2, B=%3, C=%4, D=%5, E=%6, F=%7, G=%8, H=%9\x27, "
      ++ message ++ ", " ++ RETNIL a ++ ", " ++ RETNIL b ++ ", " ++ RETNIL x3 ++ ", "
      ++ RETNIL x4 ++ ", " ++ RETNIL x5 ++ ", " ++ RETNIL x6 ++ ", " ++ RETNIL x7 ++ ", "
      ++ RETNIL x8 ++ "]] call CBA_fnc_log"
  else ""

/-! ### Identifier-concatenation macros, lines 322-323, 531-532, 600-636 -/

/-- Line 322: DOUBLES(var1,var2) pastes var1 ## _ ## var2. -/
def DOUBLES (a b : String) : String := a ++ "_" ++ b

/-- Line 323: TRIPLES(var1,var2,var3) pastes var1 ## _ ## var2 ## _ ## var3. -/
def TRIPLES (a b c : String) : String := a ++ "_" ++ b ++ "_" ++ c

/-- Line 531: GVARS(var1,var2,var3). -/
def GVARS (a b c : String) : String := a ++ "_" ++ b ++ "_" ++ c

/-- Line 532: GVARMAINS(var1,var2). -/
def GVARMAINS (a b : String) : String := a ++ "_" ++ b

/-- Line 600: GVAR(var1) = GVARS(PREFIX,COMPONENT,var1). -/
def GVAR (p comp n : String) : String := GVARS p comp n

/-- Line 618: GVARMAIN(var1) = GVARMAINS(PREFIX,var1). -/
def GVARMAIN (p n : String) : String := GVARMAINS p n

/-- Line 634: FUNC(var1) = TRIPLES(DOUBLES(PREFIX,COMPONENT),fnc,var1). -/
def FUNC (p comp n : String) : String := TRIPLES (DOUBLES p comp) "fnc" n

/-- Line 635: FUNCMAIN(var1) = TRIPLES(PREFIX,fnc,var1). -/
def FUNCMAIN (p n : String) : String := TRIPLES p "fnc" n

/-! ### Path construction, lines 42-48, 326-338, 516-518, 563-564

`PPConfig` records the relevant preprocessor definitions at inclusion
time: the values given to MAINPREFIX and SUBPREFIX if they were defined
before inclusion (`none` when they were not), and whether MODULAR was
defined. -/

structure PPConfig where
  mainPre : Option String
  subPre : Option String
  modular : Bool
deriving DecidableEq, Repr

/-- Lines 42-44: the MAINPREFIX macro, defaulting to x when not defined
before inclusion. -/
def MAINPREF (cfg : PPConfig) : String := cfg.mainPre.getD "x"

/-- Lines 46-48: the SUBPREFIX macro, defaulting to addons when not defined
before inclusion. -/
def SUBPREF (cfg : PPConfig) : String := cfg.subPre.getD "addons"

/-- Lines 326-338: COMPONENT_C is DOUBLES(c,COMPONENT) when MODULAR is
defined and COMPONENT otherwise. -/
def COMPONENT_C (modular : Bool) (comp : String) : String :=
  if modular then DOUBLES "c" comp else comp

/-- Lines 331 / 336: COMPONENT_F is COMPONENT_C when MODULAR is defined and
COMPONENT otherwise; in both branches it coincides with COMPONENT_C. -/
def COMPONENT_F (modular : Bool) (comp : String) : String :=
  COMPONENT_C modular comp

/-- Line 516: PATHTO_SYS(var1,var2,var3) = MAINPREFIX\var1\SUBPREFIX\var2\var3.sqf. -/
def PATHTO_SYS (cfg : PPConfig) (a b c : String) : String :=
  MAINPREF cfg ++ "\\" ++ a ++ "\\" ++ SUBPREF cfg ++ "\\" ++ b ++ "\\" ++ c ++ ".sqf"

/-- Line 517: PATHTOF_SYS(var1,var2,var3) = \MAINPREFIX\var1\SUBPREFIX\var2\var3. -/
def PATHTOF_SYS (cfg : PPConfig) (a b c : String) : String :=
  "\\" ++ MAINPREF cfg ++ "\\" ++ a ++ "\\" ++ SUBPREF cfg ++ "\\" ++ b ++ "\\" ++ c

/-- Line 563: PATHTO(var1) = PATHTO_SYS(PREFIX,COMPONENT_F,var1). -/
def PATHTO (cfg : PPConfig) (p comp s : String) : String :=
  PATHTO_SYS cfg p (COMPONENT_F cfg.modular comp) s

/-- Line 564: PATHTOF(var1) = PATHTOF_SYS(PREFIX,COMPONENT,var1). -/
def PATHTOF (cfg : PPConfig) (p comp s : String) : String :=
  PATHTOF_SYS cfg p comp s

/-! ### Engine values

An inductive model of the host scripting language's value universe, with
one constructor per engine type name returned by typeName.  Values whose
internal structure the macros inspect (arrays, booleans, numbers,
strings) carry their contents; the rest are opaque tags with a numeric
identity.  Numbers are modelled as rationals. -/

inductive SQF where
  | arr : List SQF → SQF
  | bool : Bool → SQF
  | code : Nat → SQF
  | config : Nat → SQF
  | control : Nat → SQF
  | display : Nat → SQF
  | group : Nat → SQF
  | object : Nat → SQF
  | scalar : Rat → SQF
  | script : Nat → SQF
  | side : Nat → SQF
  | str : String → SQF
  | text : Nat → SQF
  | location : Nat → SQF

/-- The engine's typeName command. -/
def typeName : SQF → String
  | .arr _ => "ARRAY"
  | .bool _ => "BOOL"
  | .code _ => "CODE"
  | .config _ => "CONFIG"
  | .control _ => "CONTROL"
  | .display _ => "DISPLAY"
  | .group _ => "GROUP"
  | .object _ => "OBJECT"
  | .scalar _ => "SCALAR"
  | .script _ => "SCRIPT"
  | .side _ => "SIDE"
  | .str _ => "STRING"
  | .text _ => "TEXT"
  | .location _ => "LOCATION"

/-- The engine's binary select command on an array; out-of-range access is
not a value (`none`). -/
def sqfSelect : SQF → Nat → Option SQF
  | .arr xs, i => xs.get? i
  | _, _ => none

/-- The engine's floor command; defined on scalars only. -/
def sqfFloor : SQF → Option SQF
  | .scalar q => some (.scalar ((⌊q⌋ : Int) : Rat))
  | _ => none

/-! ### Type-checking macros, lines 680-698

Each IS_x(VAR) expands to ((typeName (VAR)) == "x"); we embed the
evaluation of that comparison. -/

/-- Line 680: IS_ARRAY(VAR). -/
def IS_ARRAY (v : SQF) : Bool := decide (typeName v = "ARRAY")

/-- Line 681: IS_BOOL(VAR). -/
def IS_BOOL (v : SQF) : Bool := decide (typeName v = "BOOL")

/-- Line 682: IS_CODE(VAR). -/
def IS_CODE (v : SQF) : Bool := decide (typeName v = "CODE")

/-- Line 683: IS_CONFIG(VAR). -/
def IS_CONFIG (v : SQF) : Bool := decide (typeName v = "CONFIG")

/-- Line 684: IS_CONTROL(VAR). -/
def IS_CONTROL (v : SQF) : Bool := decide (typeName v = "CONTROL")

/-- Line 685: IS_DISPLAY(VAR). -/
def IS_DISPLAY (v : SQF) : Bool := decide (typeName v = "DISPLAY")

/-- Line 686: IS_GROUP(VAR). -/
def IS_GROUP (v : SQF) : Bool := decide (typeName v = "GROUP")

/-- Line 687: IS_OBJECT(VAR). -/
def IS_OBJECT (v : SQF) : Bool := decide (typeName v = "OBJECT")

/-- Line 688: IS_SCALAR(VAR). -/
def IS_SCALAR (v : SQF) : Bool := decide (typeName v = "SCALAR")

/-- Line 689: IS_SCRIPT(VAR). -/
def IS_SCRIPT (v : SQF) : Bool := decide (typeName v = "SCRIPT")

/-- Line 690: IS_SIDE(VAR). -/
def IS_SIDE (v : SQF) : Bool := decide (typeName v = "SIDE")

/-- Line 691: IS_STRING(VAR). -/
def IS_STRING (v : SQF) : Bool := decide (typeName v = "STRING")

/-- Line 692: IS_TEXT(VAR). -/
def IS_TEXT (v : SQF) : Bool := decide (typeName v = "TEXT")

/-- Line 693: IS_LOCATION(VAR). -/
def IS_LOCATION (v : SQF) : Bool := decide (typeName v = "LOCATION")

/-- Line 695: IS_BOOLEAN(VAR) = IS_BOOL(VAR). -/
def IS_BOOLEAN (v : SQF) : Bool := IS_BOOL v

/-- Line 696: IS_FUNCTION(VAR) = IS_CODE(VAR). -/
def IS_FUNCTION (v : SQF) : Bool := IS_CODE v

/-- Line 697: IS_INTEGER(VAR) = if IS_SCALAR(VAR) then (floor(VAR) == (VAR))
else false.  In the scalar branch the floor comparison is evaluated on the
scalar payload. -/
def IS_INTEGER (v : SQF) : Bool :=
  if IS_SCALAR v then
    match v with
    | .scalar q => decide (((⌊q⌋ : Int) : Rat) = q)
    | _ => false
  else false

/-- Line 698: IS_NUMBER(VAR) = IS_SCALAR(VAR). -/
def IS_NUMBER (v : SQF) : Bool := IS_SCALAR v

/-! ### EXPLODE_n, lines 745-764

EXPLODE_n(ARRAY,A1,..,An) expands to the statements
A1 = (ARRAY) select 0; ...; An = (ARRAY) select (n-1), each macro
delegating to the one below it.  We model the list of values assigned to
A1..An; an out-of-range select makes the whole fragment fail. -/

/-- Lines 745-746: EXPLODE_2. -/
def EXPLODE_2 (x : SQF) : Option (List SQF) := do
  let a ← sqfSelect x 0
  let b ← sqfSelect x 1
  pure [a, b]

/-- Lines 748-749: EXPLODE_3 = EXPLODE_2 plus select 2. -/
def EXPLODE_3 (x : SQF) : Option (List SQF) := do
  let l ← EXPLODE_2 x
  let c ← sqfSelect x 2
  pure (l ++ [c])

/-- Lines 751-752: EXPLODE_4 = EXPLODE_3 plus select 3. -/
def EXPLODE_4 (x : SQF) : Option (List SQF) := do
  let l ← EXPLODE_3 x
  let c ← sqfSelect x 3
  pure (l ++ [c])

/-- Lines 754-755: EXPLODE_5 = EXPLODE_4 plus select 4. -/
def EXPLODE_5 (x : SQF) : Option (List SQF) := do
  let l ← EXPLODE_4 x
  let c ← sqfSelect x 4
  pure (l ++ [c])

/-- Lines 757-758: EXPLODE_6 = EXPLODE_5 plus select 5. -/
def EXPLODE_6 (x : SQF) : Option (List SQF) := do
  let l ← EXPLODE_5 x
  let c ← sqfSelect x 5
  pure (l ++ [c])

/-- Lines 760-761: EXPLODE_7 = EXPLODE_6 plus select 6. -/
def EXPLODE_7 (x : SQF) : Option (List SQF) := do
  let l ← EXPLODE_6 x
  let c ← sqfSelect x 6
  pure (l ++ [c])

/-- Lines 763-764: EXPLODE_8 = EXPLODE_7 plus select 7. -/
def EXPLODE_8 (x : SQF) : Option (List SQF) := do
  let l ← EXPLODE_7 x
  let c ← sqfSelect x 7
  pure (l ++ [c])

/-- Lines 804-807: the value PARAMS_1(A) assigns to A:
if (IS_ARRAY(_this)) then (_this select 0) else (_this). -/
def PARAMS_1 (thisVal : SQF) : Option SQF :=
  if IS_ARRAY thisVal then sqfSelect thisVal 0 else some thisVal

/-- Lines 804-807, textual: PARAMS_1(A) expands to
private "A"; A = if (IS_ARRAY(_this)) then (_this select 0) else (_this);
followed by a TRACE_1 of the result (the stringizing operator # around A
produces the quoted name). -/
def PARAMS_1_text (c : DebugFlags) (a : String) : String :=
  "private \x22" ++ a ++ "\x22; " ++ a
    ++ " = if (IS_ARRAY(_this)) then \x7b_this select 0\x7d else \x7b_this\x7d; "
    ++ TRACE_1 c "\x22PARAMS_1\x22" a

/-! ### ISNILS, line 502

ISNILS(VARIABLE,DEFAULT_VALUE) expands to
if (isNil "VARIABLE") then (VARIABLE = DEFAULT_VALUE).  We model the
effect on the global-variable environment, a map from names to defined
values. -/

/-- Line 502: the environment after running ISNILS(VARIABLE,DEFAULT_VALUE). -/
def ISNILS (env : String → Option SQF) (v : String) (d : SQF) : String → Option SQF :=
  if (env v).isNone then Function.update env v (some d) else env

/-! ### Deprecation shims, lines 1003-1086

DEPRECATE_SYS(OLD,NEW) redefines OLD as a closure that issues one WARNING
and then forwards _this (or its absence) to NEW; OBSOLETE_SYS(OLD,CODE)
does the same with CODE.  Functions are modelled as maps from the
optional argument (`none` = _this nil) to the optional result, and the
observable effect as the list of RPT log entries of one call. -/

structure CallResult where
  ret : Option SQF
  log : List String

/-- The RPT entries produced by one executed WARNING(msg): one entry when
DEBUG_MODE_NORMAL is active, none otherwise (lines 180-184). -/
def warningLog (c : DebugFlags) (msg : String) : List String :=
  if (effFlags c).normal then ["WARNING: " ++ msg] else []

/-- Line 1005: the warning text of DEPRECATE_SYS (the Arma preprocessor
substitutes macro parameters inside string literals). -/
def deprecateMsg (oldName newName addon : String) : String :=
  "Deprecated function used: " ++ oldName ++ " (new: " ++ newName ++ ") in " ++ addon

/-- Lines 1003-1007: the function bound to OLD by DEPRECATE_SYS(OLD,NEW):
WARNING, then if (isNil "_this") then (call NEW) else (_this call NEW). -/
def DEPRECATE_SYS (c : DebugFlags) (oldName newName addon : String)
    (new : Option SQF → Option SQF) : Option SQF → CallResult :=
  fun arg =>
    CallResult.mk
      (match arg with
        | none => new none
        | some v => new (some v))
      (warningLog c (deprecateMsg oldName newName addon))

/-- Lines 1031-1032: DEPRECATE(OLD,NEW) =
DEPRECATE_SYS(DOUBLES(PREFIX,OLD),DOUBLES(PREFIX,NEW)). -/
def DEPRECATE (c : DebugFlags) (p oldName newName addon : String)
    (new : Option SQF → Option SQF) : Option SQF → CallResult :=
  DEPRECATE_SYS c (DOUBLES p oldName) (DOUBLES p newName) addon new

/-- Line 1058: the warning text of OBSOLETE_SYS. -/
def obsoleteMsg (oldName addon : String) : String :=
  "Obsolete function used: (use: " ++ oldName ++ ") in " ++ addon

/-- Lines 1056-1060: the function bound to OLD by OBSOLETE_SYS(OLD,CODE). -/
def OBSOLETE_SYS (c : DebugFlags) (oldName addon : String)
    (command : Option SQF → Option SQF) : Option SQF → CallResult :=
  fun arg =>
    CallResult.mk
      (match arg with
        | none => command none
        | some v => command (some v))
      (warningLog c (obsoleteMsg oldName addon))

/-! ### ARG_n, lines 638-645

Each ARG_n is a function-like preprocessor macro; we model its expansion
on argument texts, with the preprocessor rejecting a call whose argument
count differs from the parameter count of the called macro.  The bodies
are transcribed exactly as the source writes them; note that ARG_7 and
ARG_8 pass the argument list (A,B,C,D,E,E,F,G[,H]) - with E duplicated -
to the macro one level down. -/

/-- Line 638: ARG_1(A,B) = ((A) select (B)). -/
def ARG_1 : List String → Option String
  | [a, b] => some ("((" ++ a ++ ") select (" ++ b ++ "))")
  | _ => none

/-- Line 639: ARG_2(A,B,C) = (ARG_1(ARG_1(A,B),C)). -/
def ARG_2 : List String → Option String
  | [a, b, c] => do
      let inner ← ARG_1 [a, b]
      let outer ← ARG_1 [inner, c]
      pure ("(" ++ outer ++ ")")
  | _ => none

/-- Line 640: ARG_3(A,B,C,D) = (ARG_1(ARG_2(A,B,C),D)). -/
def ARG_3 : List String → Option String
  | [a, b, c, d] => do
      let inner ← ARG_2 [a, b, c]
      let outer ← ARG_1 [inner, d]
      pure ("(" ++ outer ++ ")")
  | _ => none

/-- Line 641: ARG_4(A,B,C,D,E) = (ARG_1(ARG_3(A,B,C,D),E)). -/
def ARG_4 : List String → Option String
  | [a, b, c, d, e] => do
      let inner ← ARG_3 [a, b, c, d]
      let outer ← ARG_1 [inner, e]
      pure ("(" ++ outer ++ ")")
  | _ => none

/-- Line 642: ARG_5(A,B,C,D,E,F) = (ARG_1(ARG_4(A,B,C,D,E),F)). -/
def ARG_5 : List String → Option String
  | [a, b, c, d, e, f] => do
      let inner ← ARG_4 [a, b, c, d, e]
      let outer ← ARG_1 [inner, f]
      pure ("(" ++ outer ++ ")")
  | _ => none

/-- Line 643: ARG_6(A,B,C,D,E,F,G) = (ARG_1(ARG_5(A,B,C,D,E,F),G)). -/
def ARG_6 : List String → Option String
  | [a, b, c, d, e, f, g] => do
      let inner ← ARG_5 [a, b, c, d, e, f]
      let outer ← ARG_1 [inner, g]
      pure ("(" ++ outer ++ ")")
  | _ => none

/-- Line 644: ARG_7(A,B,C,D,E,F,G,H) = (ARG_1(ARG_6(A,B,C,D,E,E,F,G),H)):
the source forwards eight arguments, with E doubled, to the
seven-parameter ARG_6. -/
def ARG_7 : List String → Option String
  | [a, b, c, d, e, f, g, h] => do
      let inner ← ARG_6 [a, b, c, d, e, e, f, g]
      let outer ← ARG_1 [inner, h]
      pure ("(" ++ outer ++ ")")
  | _ => none

/-- Line 645: ARG_8(A,B,C,D,E,F,G,H,I) = (ARG_1(ARG_7(A,B,C,D,E,E,F,G,H),I)):
the source forwards nine arguments, with E doubled, to the
eight-parameter ARG_7. -/
def ARG_8 : List String → Option String
  | [a, b, c, d, e, f, g, h, i] => do
      let inner ← ARG_7 [a, b, c, d, e, e, f, g, h]
      let outer ← ARG_1 [inner, i]
      pure ("(" ++ outer ++ ")")
  | _ => none

/-! ### The preprocessor substitution step

A macro definition is a name, a parameter list and a replacement-text
token list; expanding a call substitutes each argument's token list for
each occurrence of the corresponding parameter.  `SubstRel` is that
substitution as a relation between replacement text and output text,
`substFun` is it as a function.  The stringizing and pasting operators #
and ## are ordinary tokens of the replacement text at this level.  In
the token lists, every identifier is one token; runs of punctuation may
be grouped into one token. -/

structure MacroDef where
  name : String
  params : List String
  body : List String
deriving DecidableEq, Repr

/-- Position of a token in a macro's parameter list. -/
def paramIndex (params : List String) (t : String) : Option Nat :=
  match params with
  | [] => none
  | p :: ps => if p = t then some 0 else Option.map (fun n => n + 1) (paramIndex ps t)

/-- One token of replacement text after argument substitution. -/
def substTok (params : List String) (args : List (List String)) (t : String) : List String :=
  match paramIndex params t with
  | some i => (args[i]?).getD [t]
  | none => [t]

/-- Argument substitution over a whole replacement text, as a function. -/
def substFun (params : List String) (args : List (List String)) : List String → List String
  | [] => []
  | t :: ts => substTok params args t ++ substFun params args ts

/-- Argument substitution as a derivation relation on token lists: each
parameter occurrence is replaced by the corresponding argument text, every
other token is copied.  The relation relates input text to output text
and nothing else: an expansion step carries no state. -/
inductive SubstRel (params : List String) (args : List (List String)) :
    List String → List String → Prop where
  | nil : SubstRel params args [] []
  | param : ∀ {t : String} {i : Nat} {a rest out : List String},
      paramIndex params t = some i → args[i]? = some a →
      SubstRel params args rest out → SubstRel params args (t :: rest) (a ++ out)
  | plain : ∀ {t : String} {rest out : List String},
      paramIndex params t = none →
      SubstRel params args rest out → SubstRel params args (t :: rest) (t :: out)

/-- A full expansion of a macro call: the call supplies as many arguments
as the macro has parameters, and the output derives from the replacement
text by argument substitution. -/
def ExpandsTo (m : MacroDef) (args : List (List String)) (out : List String) : Prop :=
  args.length = m.params.length ∧ SubstRel m.params args m.body out

/-! ### The macro surface of script_macros_common.hpp as a table

One `MacroDef` per #define of the file, tokenised as described above,
with escapes \x27 (single quote), \x22 (double quote), \x7b and \x7d
(braces) inside token strings.  The table is parametrised by the
preprocessor state the file is included under: the debug flags `c`,
whether MODULAR is defined, and whether THIS_FILE is defined, since the
file selects different replacement texts under #ifdef on those.  The
#ifndef-guarded entries (MAINPREFIX, SUBPREFIX, MAINLOGIC, VERSION,
VERSION_AR, VERSION_CONFIG, DEBUG_SETTINGS) are listed with the default
bodies the file defines when they were not defined before inclusion.
DEBUG_MODE_NORMAL and DEBUG_MODE_MINIMAL, when (re)defined by lines
119-132, have empty replacement text. -/

set_option maxHeartbeats 2000000 in
/-- Lines 322-554 (the Internal Functions group): one `MacroDef` per
#define, in source order. -/
def cbaMacroTableGeneral (modular : Bool) : List MacroDef :=
  [⟨"DOUBLES", ["var1", "var2"], ["##", "var1", "##", "_", "##", "var2"]⟩,
   ⟨"TRIPLES", ["var1", "var2", "var3"],
     ["##", "var1", "##", "_", "##", "var2", "##", "_", "##", "var3"]⟩,
   ⟨"QUOTE", ["var1"], ["#", "var1"]⟩,
   ⟨"COMPONENT_T", [],
     if modular then ["DOUBLES", "(", "t", ",", "COMPONENT", ")"] else ["COMPONENT"]⟩,
   ⟨"COMPONENT_M", [],
     if modular then ["DOUBLES", "(", "m", ",", "COMPONENT", ")"] else ["COMPONENT"]⟩,
   ⟨"COMPONENT_S", [],
     if modular then ["DOUBLES", "(", "s", ",", "COMPONENT", ")"] else ["COMPONENT"]⟩,
   ⟨"COMPONENT_C", [],
     if modular then ["DOUBLES", "(", "c", ",", "COMPONENT", ")"] else ["COMPONENT"]⟩,
   ⟨"COMPONENT_F", [], if modular then ["COMPONENT_C"] else ["COMPONENT"]⟩,
   ⟨"INC", ["var"], ["var", "=", "(", "var", ")", "+", "1"]⟩,
   ⟨"DEC", ["var"], ["var", "=", "(", "var", ")", "-", "1"]⟩,
   ⟨"ADD", ["var1", "var2"],
     ["var1", "=", "(", "var1", ")", "+", "(", "var2", ")"]⟩,
   ⟨"SUB", ["var1", "var2"],
     ["var1", "=", "(", "var1", ")", "-", "(", "var2", ")"]⟩,
   ⟨"REM", ["var1", "var2"], ["SUB", "(", "var1", ",", "[", "var2", "]", ")"]⟩,
   ⟨"PUSH", ["var1", "var2"],
     ["var1", "set", "[", "count", "(", "var1", ")", ",", "var2", "]"]⟩,
   ⟨"ISNILS", ["VARIABLE", "DEFAULT_VALUE"],
     ["if", "(", "isNil", "#", "VARIABLE", ")", "then", "\x7b", "##", "VARIABLE", "=",
      "##", "DEFAULT_VALUE", "\x7d"]⟩,
   ⟨"ISNILS2", ["var1", "var2", "var3", "var4"],
     ["ISNILS", "(", "TRIPLES", "(", "var1", ",", "var2", ",", "var3", ")", ",", "var4",
      ")"]⟩,
   ⟨"ISNILS3", ["var1", "var2", "var3"],
     ["ISNILS", "(", "DOUBLES", "(", "var1", ",", "var2", ")", ",", "var3", ")"]⟩,
   ⟨"ISNIL", ["var1", "var2"],
     ["ISNILS2", "(", "PREFIX", ",", "COMPONENT", ",", "var1", ",", "var2", ")"]⟩,
   ⟨"ISNILMAIN", ["var1", "var2"],
     ["ISNILS3", "(", "PREFIX", ",", "var1", ",", "var2", ")"]⟩,
   ⟨"CREATELOGICS", ["var1", "var2"],
     ["##", "var1", "##", "_", "##", "var2", "##", "=", "(", "[", "sideLogic", "]",
      "call", "CBA_fnc_getSharedGroup", ")", "createUnit", "[", "\x22LOGIC\x22", ",",
      "[", "0", ",", "0", ",", "0", "]", ",", "[", "]", ",", "0", ",", "\x22NONE\x22",
      "]"]⟩,
   ⟨"CREATELOGICLOCALS", ["var1", "var2"],
     ["##", "var1", "##", "_", "##", "var2", "##", "=", "\x22LOGIC\x22",
      "createVehicleLocal", "[", "0", ",", "0", ",", "0", "]"]⟩,
   ⟨"CREATELOGICGLOBALS", ["var1", "var2"],
     ["##", "var1", "##", "_", "##", "var2", "##", "=", "(", "[", "sideLogic", "]",
      "call", "CBA_fnc_getSharedGroup", ")", "createUnit", "[", "\x22LOGIC\x22", ",",
      "[", "0", ",", "0", ",", "0", "]", ",", "[", "]", ",", "0", ",", "\x22NONE\x22",
      "]", ";", "publicVariable", "QUOTE", "(", "DOUBLES", "(", "var1", ",", "var2",
      ")", ")"]⟩,
   ⟨"CREATELOGICGLOBALTESTS", ["var1", "var2"],
     ["##", "var1", "##", "_", "##", "var2", "##", "=", "(", "[", "sideLogic", "]",
      "call", "CBA_fnc_getSharedGroup", ")", "createUnit", "[", "QUOTE", "(",
      "TRIPLES", "(", "PREFIX", ",", "COMPONENT", ",", "logic", ")", ")", ",",
      "[", "0", ",", "0", ",", "0", "]", ",", "[", "]", ",", "0", ",", "\x22NONE\x22",
      "]"]⟩,
   ⟨"GETVARS", ["var1", "var2", "var3"],
     ["(", "##", "var1", "##", "_", "##", "var2", "getVariable", "#", "var3", ")"]⟩,
   ⟨"GETVARMAINS", ["var1", "var2"],
     ["GETVARS", "(", "var1", ",", "MAINLOGIC", ",", "var2", ")"]⟩,
   ⟨"PATHTO_SYS", ["var1", "var2", "var3"],
     ["MAINPREFIX", "\\", "##", "var1", "\\", "SUBPREFIX", "\\", "##", "var2", "\\",
      "##", "var3", ".sqf"]⟩,
   ⟨"PATHTOF_SYS", ["var1", "var2", "var3"],
     ["\\", "MAINPREFIX", "\\", "##", "var1", "\\", "SUBPREFIX", "\\", "##", "var2",
      "\\", "##", "var3"]⟩,
   ⟨"PATHTOF2_SYS", ["var1", "var2", "var3"],
     ["MAINPREFIX", "\\", "##", "var1", "\\", "SUBPREFIX", "\\", "##", "var2", "\\",
      "##", "var3"]⟩,
   ⟨"PATHTO_R", ["var1"],
     ["PATHTOF2_SYS", "(", "PREFIX", ",", "COMPONENT_C", ",", "var1", ")"]⟩,
   ⟨"PATHTO_T", ["var1"],
     ["PATHTOF_SYS", "(", "PREFIX", ",", "COMPONENT_T", ",", "var1", ")"]⟩,
   ⟨"PATHTO_M", ["var1"],
     ["PATHTOF_SYS", "(", "PREFIX", ",", "COMPONENT_M", ",", "var1", ")"]⟩,
   ⟨"PATHTO_S", ["var1"],
     ["PATHTOF_SYS", "(", "PREFIX", ",", "COMPONENT_S", ",", "var1", ")"]⟩,
   ⟨"PATHTO_C", ["var1"],
     ["PATHTOF_SYS", "(", "PREFIX", ",", "COMPONENT_C", ",", "var1", ")"]⟩,
   ⟨"PATHTO_F", ["var1"],
     ["PATHTO_SYS", "(", "PREFIX", ",", "COMPONENT_F", ",", "var1", ")"]⟩,
   ⟨"COMPILE_FILE_SYS", ["var1", "var2", "var3"],
     ["compile", "preProcessFileLineNumbers", "\x27", "PATHTO_SYS", "(", "var1", ",",
      "var2", ",", "var3", ")", "\x27"]⟩,
   ⟨"SETVARS", ["var1", "var2"],
     ["##", "var1", "##", "_", "##", "var2", "setVariable"]⟩,
   ⟨"SETVARMAINS", ["var1"], ["SETVARS", "(", "var1", ",", "MAINLOGIC", ")"]⟩,
   ⟨"GVARS", ["var1", "var2", "var3"],
     ["##", "var1", "##", "_", "##", "var2", "##", "_", "##", "var3"]⟩,
   ⟨"GVARMAINS", ["var1", "var2"], ["##", "var1", "##", "_", "##", "var2", "##"]⟩,
   ⟨"CFGSETTINGSS", ["var1", "var2"],
     ["configFile", ">>", "\x22CfgSettings\x22", ">>", "#", "var1", ">>", "#", "var2"]⟩,
   ⟨"PREPMAIN_SYS", ["var1", "var2", "var3"],
     ["##", "var1", "##", "_fnc_", "##", "var3", "=", "\x7b", "##", "var1", "##",
      "_fnc_", "##", "var3", "=", "COMPILE_FILE_SYS", "(", "var1", ",", "var2", ",",
      "DOUBLES", "(", "fnc", ",", "var3", ")", ")", ";", "if", "(", "isNil",
      "\x22_this\x22", ")", "then", "\x7b", "call", "##", "var1", "##", "_fnc_", "##",
      "var3", "\x7d", "else", "\x7b", "_this", "call", "##", "var1", "##", "_fnc_",
      "##", "var3", "\x7d", "\x7d"]⟩,
   ⟨"PREP_SYS", ["var1", "var2", "var3"],
     ["##", "var1", "##", "_", "##", "var2", "##", "_fnc_", "##", "var3", "=",
      "COMPILE_FILE_SYS", "(", "var1", ",", "var2", ",", "DOUBLES", "(", "fnc", ",",
      "var3", ")", ")"]⟩,
   ⟨"PREP_SYS2", ["var1", "var2", "var3", "var4"],
     ["##", "var1", "##", "_", "##", "var2", "##", "_fnc_", "##", "var4", "=",
      "COMPILE_FILE_SYS", "(", "var1", ",", "var3", ",", "DOUBLES", "(", "fnc", ",",
      "var4", ")", ")"]⟩,
   ⟨"LSTR", ["var1"], ["TRIPLES", "(", "ADDON", ",", "STR", ",", "var1", ")"]⟩,
   ⟨"DEBUG_SETTINGS", [], ["[", "false", ",", "true", ",", "false", "]"]⟩,
   ⟨"MSG_INIT", [],
     ["QUOTE", "(", "Initializing:", "ADDON", "version:", "VERSION", ")"]⟩]

set_option maxHeartbeats 2000000 in
/-- Lines 559-1086 (the User Functions, assertions and deprecation
groups): one `MacroDef` per #define, in source order. -/
def cbaMacroTableUser : List MacroDef :=
  [⟨"ADDON", [], ["DOUBLES", "(", "PREFIX", ",", "COMPONENT", ")"]⟩,
   ⟨"MAIN_ADDON", [], ["DOUBLES", "(", "PREFIX", ",", "main", ")"]⟩,
   ⟨"CFGSETTINGS", [], ["CFGSETTINGSS", "(", "PREFIX", ",", "COMPONENT", ")"]⟩,
   ⟨"PATHTO", ["var1"],
     ["PATHTO_SYS", "(", "PREFIX", ",", "COMPONENT_F", ",", "var1", ")"]⟩,
   ⟨"PATHTOF", ["var1"],
     ["PATHTOF_SYS", "(", "PREFIX", ",", "COMPONENT", ",", "var1", ")"]⟩,
   ⟨"COMPILE_FILE", ["var1"],
     ["COMPILE_FILE_SYS", "(", "PREFIX", ",", "COMPONENT_F", ",", "var1", ")"]⟩,
   ⟨"VERSIONING_SYS", ["var1"],
     ["class", "CfgSettings", "\x7b", "class", "CBA", "\x7b", "class", "Versioning",
      "\x7b", "class", "var1", "\x7b", "\x7d", ";", "\x7d", ";", "\x7d", ";", "\x7d",
      ";"]⟩,
   ⟨"VERSIONING", [], ["VERSIONING_SYS", "(", "PREFIX", ")"]⟩,
   ⟨"GVAR", ["var1"],
     ["GVARS", "(", "PREFIX", ",", "COMPONENT", ",", "var1", ")"]⟩,
   ⟨"GVARMAIN", ["var1"], ["GVARMAINS", "(", "PREFIX", ",", "var1", ")"]⟩,
   ⟨"SETTINGS", [], ["DOUBLES", "(", "PREFIX", ",", "settings", ")"]⟩,
   ⟨"CREATELOGIC", [], ["CREATELOGICS", "(", "PREFIX", ",", "COMPONENT", ")"]⟩,
   ⟨"CREATELOGICGLOBAL", [],
     ["CREATELOGICGLOBALS", "(", "PREFIX", ",", "COMPONENT", ")"]⟩,
   ⟨"CREATELOGICGLOBALTEST", [],
     ["CREATELOGICGLOBALTESTS", "(", "PREFIX", ",", "COMPONENT", ")"]⟩,
   ⟨"CREATELOGICLOCAL", [],
     ["CREATELOGICLOCALS", "(", "PREFIX", ",", "COMPONENT", ")"]⟩,
   ⟨"CREATELOGICMAIN", [], ["CREATELOGICS", "(", "PREFIX", ",", "MAINLOGIC", ")"]⟩,
   ⟨"GETVAR", ["var1"],
     ["GETVARS", "(", "PREFIX", ",", "COMPONENT", ",", "var1", ")"]⟩,
   ⟨"SETVAR", [], ["SETVARS", "(", "PREFIX", ",", "COMPONENT", ")"]⟩,
   ⟨"SETVARMAIN", [], ["SETVARMAINS", "(", "PREFIX", ")"]⟩,
   ⟨"IFCOUNT", ["var1", "var2", "var3"],
     ["if", "(", "count", "##", "var1", ">", "##", "var2", ")", "then", "\x7b", "##",
      "var3", "=", "##", "var1", "select", "##", "var2", "\x7d", ";"]⟩,
   ⟨"PREP", ["var1"],
     ["PREP_SYS2", "(", "PREFIX", ",", "COMPONENT", ",", "COMPONENT_F", ",", "var1",
      ")"]⟩,
   ⟨"PREPMAIN", ["var1"],
     ["PREPMAIN_SYS", "(", "PREFIX", ",", "COMPONENT_F", ",", "var1", ")"]⟩,
   ⟨"FUNC", ["var1"],
     ["TRIPLES", "(", "DOUBLES", "(", "PREFIX", ",", "COMPONENT", ")", ",", "fnc", ",",
      "var1", ")"]⟩,
   ⟨"FUNCMAIN", ["var1"], ["TRIPLES", "(", "PREFIX", ",", "fnc", ",", "var1", ")"]⟩,
   ⟨"FUNC_INNER", ["var1", "var2"],
     ["TRIPLES", "(", "DOUBLES", "(", "PREFIX", ",", "var1", ")", ",", "fnc", ",",
      "var2", ")"]⟩,
   ⟨"ARG_1", ["A", "B"], ["(", "(", "A", ")", "select", "(", "B", ")", ")"]⟩,
   ⟨"ARG_2", ["A", "B", "C"],
     ["(", "ARG_1", "(", "ARG_1", "(", "A", ",", "B", ")", ",", "C", ")", ")"]⟩,
   ⟨"ARG_3", ["A", "B", "C", "D"],
     ["(", "ARG_1", "(", "ARG_2", "(", "A", ",", "B", ",", "C", ")", ",", "D", ")",
      ")"]⟩,
   ⟨"ARG_4", ["A", "B", "C", "D", "E"],
     ["(", "ARG_1", "(", "ARG_3", "(", "A", ",", "B", ",", "C", ",", "D", ")", ",",
      "E", ")", ")"]⟩,
   ⟨"ARG_5", ["A", "B", "C", "D", "E", "F"],
     ["(", "ARG_1", "(", "ARG_4", "(", "A", ",", "B", ",", "C", ",", "D", ",", "E",
      ")", ",", "F", ")", ")"]⟩,
   ⟨"ARG_6", ["A", "B", "C", "D", "E", "F", "G"],
     ["(", "ARG_1", "(", "ARG_5", "(", "A", ",", "B", ",", "C", ",", "D", ",", "E",
      ",", "F", ")", ",", "G", ")", ")"]⟩,
   ⟨"ARG_7", ["A", "B", "C", "D", "E", "F", "G", "H"],
     ["(", "ARG_1", "(", "ARG_6", "(", "A", ",", "B", ",", "C", ",", "D", ",", "E",
      ",", "E", ",", "F", ",", "G", ")", ",", "H", ")", ")"]⟩,
   ⟨"ARG_8", ["A", "B", "C", "D", "E", "F", "G", "H", "I"],
     ["(", "ARG_1", "(", "ARG_7", "(", "A", ",", "B", ",", "C", ",", "D", ",", "E",
      ",", "E", ",", "F", ",", "G", ",", "H", ")", ",", "I", ")", ")"]⟩,
   ⟨"DISPLAY", ["A"], ["(", "findDisplay", "A", ")"]⟩,
   ⟨"CONTROL", ["A"], ["DISPLAY", "(", "A", ")", "displayCtrl"]⟩,
   ⟨"IS_ARRAY", ["VAR"],
     ["(", "(", "typeName", "(", "VAR", ")", ")", "==", "\x22ARRAY\x22", ")"]⟩,
   ⟨"IS_BOOL", ["VAR"],
     ["(", "(", "typeName", "(", "VAR", ")", ")", "==", "\x22BOOL\x22", ")"]⟩,
   ⟨"IS_CODE", ["VAR"],
     ["(", "(", "typeName", "(", "VAR", ")", ")", "==", "\x22CODE\x22", ")"]⟩,
   ⟨"IS_CONFIG", ["VAR"],
     ["(", "(", "typeName", "(", "VAR", ")", ")", "==", "\x22CONFIG\x22", ")"]⟩,
   ⟨"IS_CONTROL", ["VAR"],
     ["(", "(", "typeName", "(", "VAR", ")", ")", "==", "\x22CONTROL\x22", ")"]⟩,
   ⟨"IS_DISPLAY", ["VAR"],
     ["(", "(", "typeName", "(", "VAR", ")", ")", "==", "\x22DISPLAY\x22", ")"]⟩,
   ⟨"IS_GROUP", ["VAR"],
     ["(", "(", "typeName", "(", "VAR", ")", ")", "==", "\x22GROUP\x22", ")"]⟩,
   ⟨"IS_OBJECT", ["VAR"],
     ["(", "(", "typeName", "(", "VAR", ")", ")", "==", "\x22OBJECT\x22", ")"]⟩,
   ⟨"IS_SCALAR", ["VAR"],
     ["(", "(", "typeName", "(", "VAR", ")", ")", "==", "\x22SCALAR\x22", ")"]⟩,
   ⟨"IS_SCRIPT", ["VAR"],
     ["(", "(", "typeName", "(", "VAR", ")", ")", "==", "\x22SCRIPT\x22", ")"]⟩,
   ⟨"IS_SIDE", ["VAR"],
     ["(", "(", "typeName", "(", "VAR", ")", ")", "==", "\x22SIDE\x22", ")"]⟩,
   ⟨"IS_STRING", ["VAR"],
     ["(", "(", "typeName", "(", "VAR", ")", ")", "==", "\x22STRING\x22", ")"]⟩,
   ⟨"IS_TEXT", ["VAR"],
     ["(", "(", "typeName", "(", "VAR", ")", ")", "==", "\x22TEXT\x22", ")"]⟩,
   ⟨"IS_LOCATION", ["VAR"],
     ["(", "(", "typeName", "(", "VAR", ")", ")", "==", "\x22LOCATION\x22", ")"]⟩,
   ⟨"IS_BOOLEAN", ["VAR"], ["IS_BOOL", "(", "VAR", ")"]⟩,
   ⟨"IS_FUNCTION", ["VAR"], ["IS_CODE", "(", "VAR", ")"]⟩,
   ⟨"IS_INTEGER", ["VAR"],
     ["if", "\x7b", "IS_SCALAR", "(", "VAR", ")", "\x7d", "then", "\x7b", "(",
      "floor", "(", "VAR", ")", "==", "(", "VAR", ")", ")", "\x7d", "else", "\x7b",
      "false", "\x7d"]⟩,
   ⟨"IS_NUMBER", ["VAR"], ["IS_SCALAR", "(", "VAR", ")"]⟩,
   ⟨"SCRIPT", ["NAME"],
     ["scriptName", "\x27", "PREFIX", "\\", "COMPONENT", "\\", "NAME", "\x27"]⟩,
   ⟨"EXPLODE_2", ["ARRAY", "A", "B"],
     ["A", "=", "(", "ARRAY", ")", "select", "0", ";",
      "B", "=", "(", "ARRAY", ")", "select", "1"]⟩,
   ⟨"EXPLODE_3", ["ARRAY", "A", "B", "C"],
     ["EXPLODE_2", "(", "ARRAY", ",", "A", ",", "B", ")", ";",
      "C", "=", "(", "ARRAY", ")", "select", "2"]⟩,
   ⟨"EXPLODE_4", ["ARRAY", "A", "B", "C", "D"],
     ["EXPLODE_3", "(", "ARRAY", ",", "A", ",", "B", ",", "C", ")", ";",
      "D", "=", "(", "ARRAY", ")", "select", "3"]⟩,
   ⟨"EXPLODE_5", ["ARRAY", "A", "B", "C", "D", "E"],
     ["EXPLODE_4", "(", "ARRAY", ",", "A", ",", "B", ",", "C", ",", "D", ")", ";",
      "E", "=", "(", "ARRAY", ")", "select", "4"]⟩,
   ⟨"EXPLODE_6", ["ARRAY", "A", "B", "C", "D", "E", "F"],
     ["EXPLODE_5", "(", "ARRAY", ",", "A", ",", "B", ",", "C", ",", "D", ",", "E",
      ")", ";", "F", "=", "(", "ARRAY", ")", "select", "5"]⟩,
   ⟨"EXPLODE_7", ["ARRAY", "A", "B", "C", "D", "E", "F", "G"],
     ["EXPLODE_6", "(", "ARRAY", ",", "A", ",", "B", ",", "C", ",", "D", ",", "E",
      ",", "F", ")", ";", "G", "=", "(", "ARRAY", ")", "select", "6"]⟩,
   ⟨"EXPLODE_8", ["ARRAY", "A", "B", "C", "D", "E", "F", "G", "H"],
     ["EXPLODE_7", "(", "ARRAY", ",", "A", ",", "B", ",", "C", ",", "D", ",", "E",
      ",", "F", ",", "G", ")", ";", "H", "=", "(", "ARRAY", ")", "select", "7"]⟩,
   ⟨"PARAMS_1", ["A"],
     ["private", "#", "A", ";", "A", "=", "if", "(", "IS_ARRAY", "(", "_this", ")",
      ")", "then", "\x7b", "_this", "select", "0", "\x7d", "else", "\x7b", "_this",
      "\x7d", ";", "TRACE_1", "(", "\x22PARAMS_1\x22", ",", "A", ")"]⟩,
   ⟨"PARAMS_2", ["A", "B"],
     ["private", "[", "#", "A", ",", "#", "B", "]", ";",
      "EXPLODE_2", "(", "_this", ",", "A", ",", "B", ")", ";",
      "TRACE_2", "(", "\x22PARAMS_2\x22", ",", "A", ",", "B", ")"]⟩,
   ⟨"PARAMS_3", ["A", "B", "C"],
     ["private", "[", "#", "A", ",", "#", "B", ",", "#", "C", "]", ";",
      "EXPLODE_3", "(", "_this", ",", "A", ",", "B", ",", "C", ")", ";",
      "TRACE_3", "(", "\x22PARAMS_3\x22", ",", "A", ",", "B", ",", "C", ")"]⟩,
   ⟨"PARAMS_4", ["A", "B", "C", "D"],
     ["private", "[", "#", "A", ",", "#", "B", ",", "#", "C", ",", "#", "D", "]", ";",
      "EXPLODE_4", "(", "_this", ",", "A", ",", "B", ",", "C", ",", "D", ")", ";",
      "TRACE_4", "(", "\x22PARAMS_4\x22", ",", "A", ",", "B", ",", "C", ",", "D", ")"]⟩,
   ⟨"PARAMS_5", ["A", "B", "C", "D", "E"],
     ["private", "[", "#", "A", ",", "#", "B", ",", "#", "C", ",", "#", "D", ",",
      "#", "E", "]", ";",
      "EXPLODE_5", "(", "_this", ",", "A", ",", "B", ",", "C", ",", "D", ",", "E",
      ")", ";",
      "TRACE_5", "(", "\x22PARAMS_5\x22", ",", "A", ",", "B", ",", "C", ",", "D", ",",
      "E", ")"]⟩,
   ⟨"PARAMS_6", ["A", "B", "C", "D", "E", "F"],
     ["private", "[", "#", "A", ",", "#", "B", ",", "#", "C", ",", "#", "D", ",",
      "#", "E", ",", "#", "F", "]", ";",
      "EXPLODE_6", "(", "_this", ",", "A", ",", "B", ",", "C", ",", "D", ",", "E",
      ",", "F", ")", ";",
      "TRACE_6", "(", "\x22PARAMS_6\x22", ",", "A", ",", "B", ",", "C", ",", "D", ",",
      "E", ",", "F", ")"]⟩,
   ⟨"PARAMS_7", ["A", "B", "C", "D", "E", "F", "G"],
     ["private", "[", "#", "A", ",", "#", "B", ",", "#", "C", ",", "#", "D", ",",
      "#", "E", ",", "#", "F", ",", "#", "G", "]", ";",
      "EXPLODE_7", "(", "_this", ",", "A", ",", "B", ",", "C", ",", "D", ",", "E",
      ",", "F", ",", "G", ")", ";",
      "TRACE_7", "(", "\x22PARAMS_7\x22", ",", "A", ",", "B", ",", "C", ",", "D", ",",
      "E", ",", "F", ",", "G", ")"]⟩,
   ⟨"PARAMS_8", ["A", "B", "C", "D", "E", "F", "G", "H"],
     ["private", "[", "#", "A", ",", "#", "B", ",", "#", "C", ",", "#", "D", ",",
      "#", "E", ",", "#", "F", ",", "#", "G", ",", "#", "H", "]", ";",
      "EXPLODE_8", "(", "_this", ",", "A", ",", "B", ",", "C", ",", "D", ",", "E",
      ",", "F", ",", "G", ",", "H", ")", ";",
      "TRACE_8", "(", "\x22PARAMS_8\x22", ",", "A", ",", "B", ",", "C", ",", "D", ",",
      "E", ",", "F", ",", "G", ",", "H", ")"]⟩,
   ⟨"DEFAULT_PARAM", ["INDEX", "NAME", "DEF_VALUE"],
     ["private", "#", "NAME", ";", "NAME", "=", "[", "RETNIL", "(", "_this", ")", ",",
      "INDEX", ",", "DEF_VALUE", "]", "call", "CBA_fnc_defaultParam", ";",
      "TRACE_3", "(", "\x22DEFAULT_PARAM\x22", ",", "INDEX", ",", "NAME", ",",
      "DEF_VALUE", ")"]⟩,
   ⟨"ASSERTION_ERROR", ["MESSAGE"],
     ["ERROR_WITH_TITLE", "(", "\x22Assertion failed!\x22", ",", "MESSAGE", ")"]⟩,
   ⟨"ASSERT_TRUE", ["CONDITION", "MESSAGE"],
     ["if", "(", "not", "(", "CONDITION", ")", ")", "then", "\x7b",
      "ASSERTION_ERROR", "(", "\x27", "Assertion", "(", "CONDITION", ")",
      "failed!\\n\\n", "\x27", "+", "(", "MESSAGE", ")", ")", ";", "\x7d"]⟩,
   ⟨"ASSERT_FALSE", ["CONDITION", "MESSAGE"],
     ["if", "(", "CONDITION", ")", "then", "\x7b",
      "ASSERTION_ERROR", "(", "\x27", "Assertion", "(", "not", "(", "CONDITION", ")",
      ")", "failed!\\n\\n", "\x27", "+", "(", "MESSAGE", ")", ")", "\x7d"]⟩,
   ⟨"ASSERT_OP", ["A", "OPERATOR", "B", "MESSAGE"],
     ["if", "(", "not", "(", "(", "A", ")", "OPERATOR", "(", "B", ")", ")", ")",
      "then", "\x7b",
      "ASSERTION_ERROR", "(", "\x27", "Assertion", "(", "A", "OPERATOR", "B", ")",
      "failed!\\n", "\x27", "+", "\x27", "A:", "\x27", "+", "(", "str", "(", "A", ")",
      ")", "+", "\x27", "\\n", "\x27", "+", "\x27", "B:", "\x27", "+", "(", "str", "(",
      "B", ")", ")", "+", "\x22\\n\\n\x22", "+", "(", "MESSAGE", ")", ")", ";",
      "\x7d"]⟩,
   ⟨"ASSERT_DEFINED", ["VARIABLE", "MESSAGE"],
     ["if", "(", "isNil", "VARIABLE", ")", "then", "\x7b",
      "ASSERTION_ERROR", "(", "\x27", "Assertion", "(", "VARIABLE", "is", "defined",
      ")", "failed!\\n\\n", "\x27", "+", "(", "MESSAGE", ")", ")", ";", "\x7d"]⟩,
   ⟨"DEPRECATE_SYS", ["OLD_FUNCTION", "NEW_FUNCTION"],
     ["OLD_FUNCTION", "=", "\x7b",
      "WARNING", "(", "\x27", "Deprecated", "function", "used:", "OLD_FUNCTION", "(",
      "new:", "NEW_FUNCTION", ")", "in", "ADDON", "\x27", ")", ";",
      "if", "(", "isNil", "\x22_this\x22", ")", "then", "\x7b", "call",
      "NEW_FUNCTION", "\x7d", "else", "\x7b", "_this", "call", "NEW_FUNCTION",
      "\x7d", ";", "\x7d"]⟩,
   ⟨"DEPRECATE", ["OLD_FUNCTION", "NEW_FUNCTION"],
     ["DEPRECATE_SYS", "(", "DOUBLES", "(", "PREFIX", ",", "OLD_FUNCTION", ")", ",",
      "DOUBLES", "(", "PREFIX", ",", "NEW_FUNCTION", ")", ")"]⟩,
   ⟨"OBSOLETE_SYS", ["OLD_FUNCTION", "COMMAND_CODE"],
     ["OLD_FUNCTION", "=", "\x7b",
      "WARNING", "(", "\x27", "Obsolete", "function", "used:", "(", "use:",
      "OLD_FUNCTION", ")", "in", "ADDON", "\x27", ")", ";",
      "if", "(", "isNil", "\x22_this\x22", ")", "then", "\x7b", "call",
      "COMMAND_CODE", "\x7d", "else", "\x7b", "_this", "call", "COMMAND_CODE",
      "\x7d", ";", "\x7d"]⟩,
   ⟨"OBSOLETE", ["OLD_FUNCTION", "COMMAND_CODE"],
     ["OBSOLETE_SYS", "(", "DOUBLES", "(", "PREFIX", ",", "OLD_FUNCTION", ")", ",",
      "COMMAND_CODE", ")"]⟩]

def cbaMacroTable (c : DebugFlags) (modular thisFileDef : Bool) : List MacroDef :=
  [⟨"MAINPREFIX", [], ["x"]⟩,
   ⟨"SUBPREFIX", [], ["addons"]⟩,
   ⟨"MAINLOGIC", [], ["main"]⟩,
   ⟨"VERSION", [], ["0"]⟩,
   ⟨"VERSION_AR", [], ["VERSION"]⟩,
   ⟨"VERSION_CONFIG", [],
     ["version", "=", "VERSION", ";", "versionStr", "=", "QUOTE", "(", "VERSION", ")", ";",
      "versionAr", "[", "]", "=", "\x7b", "VERSION_AR", "\x7d"]⟩,
   ⟨"DEBUG_MODE_NORMAL", [], []⟩,
   ⟨"DEBUG_MODE_MINIMAL", [], []⟩,
   ⟨"THIS_FILE_", [],
     if thisFileDef then ["\x27", "THIS_FILE", "\x27"] else ["__FILE__"]⟩,
   ⟨"LOG", ["MESSAGE"],
     if (effFlags c).full then
       ["[", "THIS_FILE_", ",", "__LINE__", ",", "MESSAGE", "]", "call", "CBA_fnc_log"]
     else []⟩,
   ⟨"WARNING", ["MESSAGE"],
     if (effFlags c).normal then
       ["[", "THIS_FILE_", ",", "__LINE__", ",", "(", "\x27WARNING: \x27", "+", "MESSAGE",
        ")", "]", "call", "CBA_fnc_log"]
     else []⟩,
   ⟨"ERROR", ["MESSAGE"],
     ["[", "THIS_FILE_", ",", "__LINE__", ",", "\x22ERROR\x22", ",", "MESSAGE", "]",
      "call", "CBA_fnc_error", ";"]⟩,
   ⟨"ERROR_WITH_TITLE", ["TITLE", "MESSAGE"],
     ["[", "THIS_FILE_", ",", "__LINE__", ",", "TITLE", ",", "MESSAGE", "]",
      "call", "CBA_fnc_error", ";"]⟩,
   ⟨"RETNIL", ["VARIABLE"],
     ["if", "(", "isNil", "\x7b", "VARIABLE", "\x7d", ")", "then", "\x7b", "nil", "\x7d",
      "else", "\x7b", "VARIABLE", "\x7d"]⟩,
   ⟨"TRACE_1", ["MESSAGE", "A"],
     if (effFlags c).full then
       ["[", "THIS_FILE_", ",", "__LINE__", ",", "format", "[", "\x27%1: A=%2\x27", ",",
        "MESSAGE", ",", "RETNIL", "(", "A", ")", "]", "]", "call", "CBA_fnc_log"]
     else []⟩,
   ⟨"TRACE_2", ["MESSAGE", "A", "B"],
     if (effFlags c).full then
       ["[", "THIS_FILE_", ",", "__LINE__", ",", "format", "[", "\x27%1: A=%2, B=%3\x27", ",",
        "MESSAGE", ",", "RETNIL", "(", "A", ")", ",", "RETNIL", "(", "B", ")", "]", "]",
        "call", "CBA_fnc_log"]
     else []⟩,
   ⟨"TRACE_3", ["MESSAGE", "A", "B", "C"],
     if (effFlags c).full then
       ["[", "THIS_FILE_", ",", "__LINE__", ",", "format", "[",
        "\x27%1: A=%2, B=%3, C=%4\x27", ",",
        "MESSAGE", ",", "RETNIL", "(", "A", ")", ",", "RETNIL", "(", "B", ")", ",",
        "RETNIL", "(", "C", ")", "]", "]", "call", "CBA_fnc_log"]
     else []⟩,
   ⟨"TRACE_4", ["MESSAGE", "A", "B", "C", "D"],
     if (effFlags c).full then
       ["[", "THIS_FILE_", ",", "__LINE__", ",", "format", "[",
        "\x27%1: A=%2, B=%3, C=%4, D=%5\x27", ",",
        "MESSAGE", ",", "RETNIL", "(", "A", ")", ",", "RETNIL", "(", "B", ")", ",",
        "RETNIL", "(", "C", ")", ",", "RETNIL", "(", "D", ")", "]", "]",
        "call", "CBA_fnc_log"]
     else []⟩,
   ⟨"TRACE_5", ["MESSAGE", "A", "B", "C", "D", "E"],
     if (effFlags c).full then
       ["[", "THIS_FILE_", ",", "__LINE__", ",", "format", "[",
        "\x27%1: A=%2, B=%3, C=%4, D=%5, E=%6\x27", ",",
        "MESSAGE", ",", "RETNIL", "(", "A", ")", ",", "RETNIL", "(", "B", ")", ",",
        "RETNIL", "(", "C", ")", ",", "RETNIL", "(", "D", ")", ",", "RETNIL", "(", "E", ")",
        "]", "]", "call", "CBA_fnc_log"]
     else []⟩,
   ⟨"TRACE_6", ["MESSAGE", "A", "B", "C", "D", "E", "F"],
     if (effFlags c).full then
       ["[", "THIS_FILE_", ",", "__LINE__", ",", "format", "[",
        "\x27%1: A=%2, B=%3, C=%4, D=%5, E=%6, F=%7\x27", ",",
        "MESSAGE", ",", "RETNIL", "(", "A", ")", ",", "RETNIL", "(", "B", ")", ",",
        "RETNIL", "(", "C", ")", ",", "RETNIL", "(", "D", ")", ",", "RETNIL", "(", "E", ")",
        ",", "RETNIL", "(", "F", ")", "]", "]", "call", "CBA_fnc_log"]
     else []⟩,
   ⟨"TRACE_7", ["MESSAGE", "A", "B", "C", "D", "E", "F", "G"],
     if (effFlags c).full then
       ["[", "THIS_FILE_", ",", "__LINE__", ",", "format", "[",
        "\x27%1: A=%2, B=%3, C=%4, D=%5, E=%6, F=%7, G=%8\x27", ",",
        "MESSAGE", ",", "RETNIL", "(", "A", ")", ",", "RETNIL", "(", "B", ")", ",",
        "RETNIL", "(", "C", ")", ",", "RETNIL", "(", "D", ")", ",", "RETNIL", "(", "E", ")",
        ",", "RETNIL", "(", "F", ")", ",", "RETNIL", "(", "G", ")", "]", "]",
        "call", "CBA_fnc_log"]
     else []⟩,
   ⟨"TRACE_8", ["MESSAGE", "A", "B", "C", "D", "E", "F", "G", "H"],
     if (effFlags c).full then
       ["[", "THIS_FILE_", ",", "__LINE__", ",", "format", "[",
        "\x27%1: A=%2, B=%3, C=%4, D=%5, E=%6, F=%7, G=%8, H=%9\x27", ",",
        "MESSAGE", ",", "RETNIL", "(", "A", ")", ",", "RETNIL", "(", "B", ")", ",",
        "RETNIL", "(", "C", ")", ",", "RETNIL", "(", "D", ")", ",", "RETNIL", "(", "E", ")",
        ",", "RETNIL", "(", "F", ")", ",", "RETNIL", "(", "G", ")", ",",
        "RETNIL", "(", "H", ")", "]", "]", "call", "CBA_fnc_log"]
     else []⟩]
  ++ cbaMacroTableGeneral modular
  ++ cbaMacroTableUser

/-! ## Theorems -/

/-! ### Shared lemmas about the substitution step -/

/-- Every substitution derivation computes `substFun`. -/
theorem substRel_eq_substFun {params : List String} {args : List (List String)}
    {b out : List String} (h : SubstRel params args b out) :
    out = substFun params args b := by
  induction h with
  | nil => rfl
  | param hidx harg _ ih => simp [substFun, substTok, hidx, harg, ih]
  | plain hidx _ ih => simp [substFun, substTok, hidx, ih]

/-- A parameter's index is within the parameter list. -/
theorem paramIndex_lt_length {t : String} :
    ∀ {params : List String} {i : Nat}, paramIndex params t = some i → i < params.length := by
  intro params
  induction params with
  | nil => intro i h; simp [paramIndex] at h
  | cons p ps ih =>
    intro i h
    by_cases hp : p = t
    · simp [paramIndex, hp] at h
      simp [List.length_cons]
      omega
    · simp [paramIndex, hp] at h
      obtain ⟨n, hn, rfl⟩ := h
      have := ih hn
      simp [List.length_cons]
      omega

/-- When the argument count matches the parameter count, the substitution
derivation for the output of `substFun` exists. -/
theorem substRel_substFun {params : List String} {args : List (List String)}
    (hlen : args.length = params.length) :
    ∀ b : List String, SubstRel params args b (substFun params args b) := by
  intro b
  induction b with
  | nil => exact SubstRel.nil
  | cons t ts ih =>
    cases hidx : paramIndex params t with
    | none =>
      have h2 := SubstRel.plain hidx ih
      simpa [substFun, substTok, hidx] using h2
    | some i =>
      have hi : i < args.length := by
        have := paramIndex_lt_length hidx
        omega
      have harg : args[i]? = some (args[i]) := List.getElem?_eq_getElem hi
      have h2 := SubstRel.param hidx harg ih
      simpa [substFun, substTok, hidx, harg] using h2

/-! ### Shared lemmas about the debug-flag cascade -/

/-- Lines 119-132 never define DEBUG_MODE_FULL. -/
theorem effFlags_full (c : DebugFlags) : (effFlags c).full = c.full := by
  obtain ⟨f, n, mi⟩ := c
  cases f <;> cases n <;> cases mi <;> rfl

/-- DEBUG_MODE_NORMAL is active after lines 119-132 exactly when it or
DEBUG_MODE_FULL was defined before inclusion, or no debug mode at all was. -/
theorem effFlags_normal (c : DebugFlags) :
    (effFlags c).normal = (c.normal || c.full || !c.minimal) := by
  obtain ⟨f, n, mi⟩ := c
  cases f <;> cases n <;> cases mi <;> rfl

/-- DEBUG_MODE_MINIMAL is always active after lines 119-132. -/
theorem effFlags_minimal (c : DebugFlags) : (effFlags c).minimal = true := by
  obtain ⟨f, n, mi⟩ := c
  cases f <;> cases n <;> cases mi <;> rfl

/-! ### C8 -/

/-- C8: the debug levels form a monotone hierarchy.  After lines 119-132,
DEBUG_MODE_FULL is active exactly when defined before inclusion, it forces
DEBUG_MODE_NORMAL, DEBUG_MODE_NORMAL forces DEBUG_MODE_MINIMAL, and with
no debug mode defined before inclusion both NORMAL and MINIMAL become
defined.  Consequently LOG and TRACE_1..TRACE_8 expand to CBA_fnc_log
calls exactly when DEBUG_MODE_FULL is defined and to nothing otherwise,
WARNING expands to a CBA_fnc_log call exactly when DEBUG_MODE_NORMAL is
active and to nothing otherwise, and ERROR and ERROR_WITH_TITLE expand to
CBA_fnc_error calls under every configuration. -/
theorem debug_mode_hierarchy (c : DebugFlags) (m t a1 a2 a3 a4 a5 a6 a7 a8 : String) :
    (effFlags c).full = c.full ∧
    ((effFlags c).full ≤ (effFlags c).normal) ∧
    ((effFlags c).normal ≤ (effFlags c).minimal) ∧
    (effFlags c).normal = (c.normal || c.full || !c.minimal) ∧
    (effFlags c).minimal = true ∧
    effFlags defaultFlags = DebugFlags.mk false true true ∧
    LOG c m
      = (if c.full then "[THIS_FILE_, __LINE__, " ++ m ++ "] call CBA_fnc_log" else "") ∧
    TRACE_1 c m a1
      = (if c.full then
          "[THIS_FILE_, __LINE__, format [\x27%1: A=%2\x27, " ++ m ++ ", "
            ++ RETNIL a1 ++ "]] call CBA_fnc_log"
         else "") ∧
    TRACE_2 c m a1 a2
      = (if c.full then
          "[THIS_FILE_, __LINE__, format [\x27%1: A=%2, B=%3\x27, " ++ m ++ ", "
            ++ RETNIL a1 ++ ", " ++ RETNIL a2 ++ "]] call CBA_fnc_log"
         else "") ∧
    TRACE_3 c m a1 a2 a3
      = (if c.full then
          "[THIS_FILE_, __LINE__, format [\x27%1: A=%2, B=%3, C=%4\x27, " ++ m ++ ", "
            ++ RETNIL a1 ++ ", " ++ RETNIL a2 ++ ", " ++ RETNIL a3
            ++ "]] call CBA_fnc_log"
         else "") ∧
    TRACE_4 c m a1 a2 a3 a4
      = (if c.full then
          "[THIS_FILE_, __LINE__, format [\x27%1: A=%2, B=%3, C=%4, D=%5\x27, "
            ++ m ++ ", " ++ RETNIL a1 ++ ", " ++ RETNIL a2 ++ ", " ++ RETNIL a3
            ++ ", " ++ RETNIL a4 ++ "]] call CBA_fnc_log"
         else "") ∧
    TRACE_5 c m a1 a2 a3 a4 a5
      = (if c.full then
          "[THIS_FILE_, __LINE__, format [\x27%1: A=%2, B=%3, C=%4, D=%5, E=%6\x27, "
            ++ m ++ ", " ++ RETNIL a1 ++ ", " ++ RETNIL a2 ++ ", " ++ RETNIL a3
            ++ ", " ++ RETNIL a4 ++ ", " ++ RETNIL a5 ++ "]] call CBA_fnc_log"
         else "") ∧
    TRACE_6 c m a1 a2 a3 a4 a5 a6
      = (if c.full then
          "[THIS_FILE_, __LINE__, format [\x27%1: A=%2, B=%3, C=%4, D=%5, E=%6, F=%7\x27, "
            ++ m ++ ", " ++ RETNIL a1 ++ ", " ++ RETNIL a2 ++ ", " ++ RETNIL a3
            ++ ", " ++ RETNIL a4 ++ ", " ++ RETNIL a5 ++ ", " ++ RETNIL a6
            ++ "]] call CBA_fnc_log"
         else "") ∧
    TRACE_7 c m a1 a2 a3 a4 a5 a6 a7
      = (if c.full then
          "[THIS_FILE_, __LINE__, format [\x27%1: A=%2, B=%3, C=%4, D=%5, E=%6, F=%7, G=%8\x27, "
            ++ m ++ ", " ++ RETNIL a1 ++ ", " ++ RETNIL a2 ++ ", " ++ RETNIL a3
            ++ ", " ++ RETNIL a4 ++ ", " ++ RETNIL a5 ++ ", " ++ RETNIL a6
            ++ ", " ++ RETNIL a7 ++ "]] call CBA_fnc_log"
         else "") ∧
    TRACE_8 c m a1 a2 a3 a4 a5 a6 a7 a8
      = (if c.full then
          "[THIS_FILE_, __LINE__, format [\x27%1: A=%2, B=%3, C=%4, D=%5, E=%6, F=%7, G=%8, H=%9\x27, "
            ++ m ++ ", " ++ RETNIL a1 ++ ", " ++ RETNIL a2 ++ ", " ++ RETNIL a3
            ++ ", " ++ RETNIL a4 ++ ", " ++ RETNIL a5 ++ ", " ++ RETNIL a6
            ++ ", " ++ RETNIL a7 ++ ", " ++ RETNIL a8 ++ "]] call CBA_fnc_log"
         else "") ∧
    WARNING c m
      = (if (effFlags c).normal then
          "[THIS_FILE_, __LINE__, (\x27WARNING: \x27 + " ++ m ++ ")] call CBA_fnc_log"
         else "") ∧
    ERROR m = "[THIS_FILE_, __LINE__, \x22ERROR\x22, " ++ m ++ "] call CBA_fnc_error;" ∧
    ERROR_WITH_TITLE t m
      = "[THIS_FILE_, __LINE__, " ++ t ++ ", " ++ m ++ "] call CBA_fnc_error;" := by
  refine ⟨effFlags_full c, ?_, ?_, effFlags_normal c, effFlags_minimal c, rfl,
    ?_, ?_, ?_, ?_, ?_, ?_, ?_, ?_, ?_, ?_, rfl, rfl⟩
  · obtain ⟨f, n, mi⟩ := c
    cases f <;> cases n <;> cases mi <;> decide
  · obtain ⟨f, n, mi⟩ := c
    cases f <;> cases n <;> cases mi <;> decide
  · simp [LOG, effFlags_full]
  · simp [TRACE_1, effFlags_full]
  · simp [TRACE_2, effFlags_full]
  · simp [TRACE_3, effFlags_full]
  · simp [TRACE_4, effFlags_full]
  · simp [TRACE_5, effFlags_full]
  · simp [TRACE_6, effFlags_full]
  · simp [TRACE_7, effFlags_full]
  · simp [TRACE_8, effFlags_full]
  · simp [WARNING]

/-! ### C1 -/

/-- C1 counterexample: under the default debug configuration (no debug
mode defined before inclusion), LOG does not expand to the CBA_fnc_log
call: it expands to nothing; and with only DEBUG_MODE_MINIMAL defined,
WARNING likewise expands to nothing. -/
theorem log_macro_not_always_call :
    LOG defaultFlags "msg" = "" ∧
    LOG defaultFlags "msg" ≠ "[THIS_FILE_, __LINE__, msg] call CBA_fnc_log" ∧
    WARNING (DebugFlags.mk false false true) "msg" = "" ∧
    WARNING (DebugFlags.mk false false true) "msg"
      ≠ "[THIS_FILE_, __LINE__, (\x27WARNING: \x27 + msg)] call CBA_fnc_log" := by
  refine ⟨rfl, ?_, rfl, ?_⟩ <;> decide

/-- C1 amended: ERROR(M) and ERROR_WITH_TITLE(T,M) expand to the stated
CBA_fnc_error calls under every debug-mode configuration; LOG(M) expands
to the stated CBA_fnc_log call when DEBUG_MODE_FULL is defined and to
nothing otherwise; WARNING(M) expands to the stated CBA_fnc_log call when
DEBUG_MODE_NORMAL is active after the cascade and to nothing otherwise. -/
theorem logging_macro_expansions (c : DebugFlags) (m t : String) :
    LOG c m
      = (if c.full then "[THIS_FILE_, __LINE__, " ++ m ++ "] call CBA_fnc_log" else "") ∧
    WARNING c m
      = (if (effFlags c).normal then
          "[THIS_FILE_, __LINE__, (\x27WARNING: \x27 + " ++ m ++ ")] call CBA_fnc_log"
         else "") ∧
    ERROR m = "[THIS_FILE_, __LINE__, \x22ERROR\x22, " ++ m ++ "] call CBA_fnc_error;" ∧
    ERROR_WITH_TITLE t m
      = "[THIS_FILE_, __LINE__, " ++ t ++ ", " ++ m ++ "] call CBA_fnc_error;" := by
  refine ⟨?_, ?_, rfl, rfl⟩
  · simp [LOG, effFlags_full]
  · simp [WARNING]

/-! ### C2 -/

/-- C2: the naming macros expand by pure identifier concatenation:
FUNC(n) to PREFIX_COMPONENT_fnc_n, GVAR(n) to PREFIX_COMPONENT_n and
GVARMAIN(n) to PREFIX_n. -/
theorem naming_macro_concatenation (p comp n : String) :
    FUNC p comp n = p ++ "_" ++ comp ++ "_fnc_" ++ n ∧
    GVAR p comp n = p ++ "_" ++ comp ++ "_" ++ n ∧
    GVARMAIN p n = p ++ "_" ++ n := by
  refine ⟨?_, rfl, rfl⟩
  show TRIPLES (DOUBLES p comp) "fnc" n = p ++ "_" ++ comp ++ "_fnc_" ++ n
  rw [show ("_fnc_" : String) = "_" ++ "fnc" ++ "_" from rfl]
  simp [TRIPLES, DOUBLES, String.append_assoc]

/-! ### C3 -/

/-- C3 counterexample: with MODULAR defined, PATHTO uses the component
c_COMPONENT, not COMPONENT, so the claimed expansion fails. -/
theorem pathto_modular_component :
    PATHTO (PPConfig.mk none none true) "six" "sys_menu" "fDate"
      = "x\\six\\addons\\c_sys_menu\\fDate.sqf" ∧
    PATHTO (PPConfig.mk none none true) "six" "sys_menu" "fDate"
      ≠ "x\\six\\addons\\sys_menu\\fDate.sqf" := by
  refine ⟨?_, ?_⟩ <;> decide

/-- C3 amended: PATHTO(s) expands to
MAINPREFIX\PREFIX\SUBPREFIX\COMPONENT_F\s.sqf where the component part
COMPONENT_F is COMPONENT when MODULAR is not defined and c_COMPONENT when
it is; PATHTOF(s) expands to \MAINPREFIX\PREFIX\SUBPREFIX\COMPONENT\s
under every configuration; and MAINPREFIX and SUBPREFIX default to x and
addons whenever they were not defined before inclusion. -/
theorem path_macro_convention (cfg : PPConfig) (p comp s : String)
    (mainv subv : Option String) (modular : Bool) :
    PATHTO cfg p comp s
      = MAINPREF cfg ++ "\\" ++ p ++ "\\" ++ SUBPREF cfg ++ "\\"
        ++ COMPONENT_F cfg.modular comp ++ "\\" ++ s ++ ".sqf" ∧
    PATHTOF cfg p comp s
      = "\\" ++ MAINPREF cfg ++ "\\" ++ p ++ "\\" ++ SUBPREF cfg ++ "\\"
        ++ comp ++ "\\" ++ s ∧
    COMPONENT_F false comp = comp ∧
    COMPONENT_F true comp = "c_" ++ comp ∧
    MAINPREF (PPConfig.mk none subv modular) = "x" ∧
    SUBPREF (PPConfig.mk mainv none modular) = "addons" := by
  refine ⟨rfl, rfl, rfl, ?_, rfl, rfl⟩
  show DOUBLES "c" comp = "c_" ++ comp
  rw [show ("c_" : String) = "c" ++ "_" from rfl]
  simp [DOUBLES, String.append_assoc]

/-! ### C4 -/

/-- C4: the parameter-destructuring macros assign positionally.  For n
from 2 to 8, EXPLODE_n on an array of length at least n assigns A1..An
the first n elements, that is, each Ak gets (X) select (k-1); PARAMS_1
declares its variable private and assigns it (_this select 0) when _this
is an array, and _this itself otherwise. -/
theorem explode_params_positional (xs : List SQF) (v : SQF) (c : DebugFlags) (a : String) :
    (2 ≤ xs.length → EXPLODE_2 (.arr xs) = some (xs.take 2)) ∧
    (3 ≤ xs.length → EXPLODE_3 (.arr xs) = some (xs.take 3)) ∧
    (4 ≤ xs.length → EXPLODE_4 (.arr xs) = some (xs.take 4)) ∧
    (5 ≤ xs.length → EXPLODE_5 (.arr xs) = some (xs.take 5)) ∧
    (6 ≤ xs.length → EXPLODE_6 (.arr xs) = some (xs.take 6)) ∧
    (7 ≤ xs.length → EXPLODE_7 (.arr xs) = some (xs.take 7)) ∧
    (8 ≤ xs.length → EXPLODE_8 (.arr xs) = some (xs.take 8)) ∧
    (∀ n k : Nat, k < n → (xs.take n).get? k = sqfSelect (.arr xs) k) ∧
    (IS_ARRAY v = true → PARAMS_1 v = sqfSelect v 0) ∧
    (IS_ARRAY v = false → PARAMS_1 v = some v) ∧
    PARAMS_1_text c a
      = "private \x22" ++ a ++ "\x22; " ++ a
          ++ " = if (IS_ARRAY(_this)) then \x7b_this select 0\x7d else \x7b_this\x7d; "
          ++ TRACE_1 c "\x22PARAMS_1\x22" a := by
  refine ⟨?_, ?_, ?_, ?_, ?_, ?_, ?_, ?_, ?_, ?_, rfl⟩
  · intro h
    match xs, h with
    | [], h => simp at h
    | [x0], h => simp at h
    | x0 :: x1 :: r, _ => rfl
  · intro h
    match xs, h with
    | [], h => simp at h
    | [x0], h => simp at h
    | [x0, x1], h => simp at h
    | x0 :: x1 :: x2 :: r, _ => rfl
  · intro h
    match xs, h with
    | [], h => simp at h
    | [x0], h => simp at h
    | [x0, x1], h => simp at h
    | [x0, x1, x2], h => simp at h
    | x0 :: x1 :: x2 :: x3 :: r, _ => rfl
  · intro h
    match xs, h with
    | [], h => simp at h
    | [x0], h => simp at h
    | [x0, x1], h => simp at h
    | [x0, x1, x2], h => simp at h
    | [x0, x1, x2, x3], h => simp at h
    | x0 :: x1 :: x2 :: x3 :: x4 :: r, _ => rfl
  · intro h
    match xs, h with
    | [], h => simp at h
    | [x0], h => simp at h
    | [x0, x1], h => simp at h
    | [x0, x1, x2], h => simp at h
    | [x0, x1, x2, x3], h => simp at h
    | [x0, x1, x2, x3, x4], h => simp at h
    | x0 :: x1 :: x2 :: x3 :: x4 :: x5 :: r, _ => rfl
  · intro h
    match xs, h with
    | [], h => simp at h
    | [x0], h => simp at h
    | [x0, x1], h => simp at h
    | [x0, x1, x2], h => simp at h
    | [x0, x1, x2, x3], h => simp at h
    | [x0, x1, x2, x3, x4], h => simp at h
    | [x0, x1, x2, x3, x4, x5], h => simp at h
    | x0 :: x1 :: x2 :: x3 :: x4 :: x5 :: x6 :: r, _ => rfl
  · intro h
    match xs, h with
    | [], h => simp at h
    | [x0], h => simp at h
    | [x0, x1], h => simp at h
    | [x0, x1, x2], h => simp at h
    | [x0, x1, x2, x3], h => simp at h
    | [x0, x1, x2, x3, x4], h => simp at h
    | [x0, x1, x2, x3, x4, x5], h => simp at h
    | [x0, x1, x2, x3, x4, x5, x6], h => simp at h
    | x0 :: x1 :: x2 :: x3 :: x4 :: x5 :: x6 :: x7 :: r, _ => rfl
  · intro n k hk
    simp [sqfSelect, List.getElem?_take, hk]
  · intro h
    simp [PARAMS_1, h]
  · intro h
    simp [PARAMS_1, h]

/-- Witness for C4: an eight-element array is destructured positionally
by every EXPLODE_n, and PARAMS_1 selects index 0 from an array _this and
passes a non-array _this through unchanged. -/
theorem explode_params_positional_witness :
    EXPLODE_2 (.arr [SQF.scalar 0, SQF.scalar 1, SQF.scalar 2, SQF.scalar 3,
        SQF.scalar 4, SQF.scalar 5, SQF.scalar 6, SQF.scalar 7])
      = some ([SQF.scalar 0, SQF.scalar 1, SQF.scalar 2, SQF.scalar 3,
          SQF.scalar 4, SQF.scalar 5, SQF.scalar 6, SQF.scalar 7].take 2) ∧
    EXPLODE_8 (.arr [SQF.scalar 0, SQF.scalar 1, SQF.scalar 2, SQF.scalar 3,
        SQF.scalar 4, SQF.scalar 5, SQF.scalar 6, SQF.scalar 7])
      = some ([SQF.scalar 0, SQF.scalar 1, SQF.scalar 2, SQF.scalar 3,
          SQF.scalar 4, SQF.scalar 5, SQF.scalar 6, SQF.scalar 7].take 8) ∧
    ([SQF.scalar 0, SQF.scalar 1, SQF.scalar 2, SQF.scalar 3,
        SQF.scalar 4, SQF.scalar 5, SQF.scalar 6, SQF.scalar 7].take 3).get? 1
      = sqfSelect (.arr [SQF.scalar 0, SQF.scalar 1, SQF.scalar 2, SQF.scalar 3,
          SQF.scalar 4, SQF.scalar 5, SQF.scalar 6, SQF.scalar 7]) 1 ∧
    PARAMS_1 (SQF.arr [SQF.scalar 7]) = sqfSelect (SQF.arr [SQF.scalar 7]) 0 ∧
    PARAMS_1 (SQF.bool true) = some (SQF.bool true) := by
  have h1 := explode_params_positional
    [SQF.scalar 0, SQF.scalar 1, SQF.scalar 2, SQF.scalar 3,
     SQF.scalar 4, SQF.scalar 5, SQF.scalar 6, SQF.scalar 7]
    (SQF.arr [SQF.scalar 7]) defaultFlags "_unit"
  have h2 := explode_params_positional
    [SQF.scalar 0, SQF.scalar 1, SQF.scalar 2, SQF.scalar 3,
     SQF.scalar 4, SQF.scalar 5, SQF.scalar 6, SQF.scalar 7]
    (SQF.bool true) defaultFlags "_unit"
  refine ⟨h1.1 (by decide), h1.2.2.2.2.2.2.1 (by decide),
    h1.2.2.2.2.2.2.2.1 3 1 (by decide),
    h1.2.2.2.2.2.2.2.2.1 rfl,
    h2.2.2.2.2.2.2.2.2.2.1 rfl⟩

/-! ### C5 -/

/-- C5: each IS_x macro evaluates to true exactly when typeName returns
the corresponding type string; IS_BOOLEAN, IS_FUNCTION and IS_NUMBER
agree with IS_BOOL, IS_CODE and IS_SCALAR; IS_INTEGER is true exactly on
scalars whose floor equals themselves, and false on every non-scalar. -/
theorem type_check_macros (v : SQF) :
    (IS_ARRAY v = true ↔ typeName v = "ARRAY") ∧
    (IS_BOOL v = true ↔ typeName v = "BOOL") ∧
    (IS_CODE v = true ↔ typeName v = "CODE") ∧
    (IS_CONFIG v = true ↔ typeName v = "CONFIG") ∧
    (IS_CONTROL v = true ↔ typeName v = "CONTROL") ∧
    (IS_DISPLAY v = true ↔ typeName v = "DISPLAY") ∧
    (IS_GROUP v = true ↔ typeName v = "GROUP") ∧
    (IS_OBJECT v = true ↔ typeName v = "OBJECT") ∧
    (IS_SCALAR v = true ↔ typeName v = "SCALAR") ∧
    (IS_SCRIPT v = true ↔ typeName v = "SCRIPT") ∧
    (IS_SIDE v = true ↔ typeName v = "SIDE") ∧
    (IS_STRING v = true ↔ typeName v = "STRING") ∧
    (IS_TEXT v = true ↔ typeName v = "TEXT") ∧
    (IS_LOCATION v = true ↔ typeName v = "LOCATION") ∧
    IS_BOOLEAN v = IS_BOOL v ∧
    IS_FUNCTION v = IS_CODE v ∧
    IS_NUMBER v = IS_SCALAR v ∧
    (IS_INTEGER v = true ↔ ∃ q : Rat, v = SQF.scalar q ∧ ((⌊q⌋ : Int) : Rat) = q) := by
  refine ⟨?_, ?_, ?_, ?_, ?_, ?_, ?_, ?_, ?_, ?_, ?_, ?_, ?_, ?_, rfl, rfl, rfl, ?_⟩
  · simp [IS_ARRAY]
  · simp [IS_BOOL]
  · simp [IS_CODE]
  · simp [IS_CONFIG]
  · simp [IS_CONTROL]
  · simp [IS_DISPLAY]
  · simp [IS_GROUP]
  · simp [IS_OBJECT]
  · simp [IS_SCALAR]
  · simp [IS_SCRIPT]
  · simp [IS_SIDE]
  · simp [IS_STRING]
  · simp [IS_TEXT]
  · simp [IS_LOCATION]
  · cases v <;> simp [IS_INTEGER, IS_SCALAR, typeName]

/-! ### C6 -/

/-- C6: a function redefined by DEPRECATE_SYS (or OBSOLETE_SYS) returns,
for every argument and for the no-argument call, exactly what the
replacement function (or command code) returns on that same argument;
the only additional effect is the WARNING log output, one RPT entry per
call under the default debug configuration; and DEPRECATE is
DEPRECATE_SYS on the two names with PREFIX_ prepended. -/
theorem deprecation_shims (c : DebugFlags) (oldName newName addon p o n cmdOld : String)
    (new command : Option SQF → Option SQF) (arg : Option SQF) :
    (DEPRECATE_SYS c oldName newName addon new arg).ret = new arg ∧
    (DEPRECATE_SYS c oldName newName addon new arg).log
      = warningLog c (deprecateMsg oldName newName addon) ∧
    warningLog defaultFlags (deprecateMsg oldName newName addon)
      = ["WARNING: " ++ deprecateMsg oldName newName addon] ∧
    (OBSOLETE_SYS c cmdOld addon command arg).ret = command arg ∧
    (OBSOLETE_SYS c cmdOld addon command arg).log
      = warningLog c (obsoleteMsg cmdOld addon) ∧
    warningLog defaultFlags (obsoleteMsg cmdOld addon)
      = ["WARNING: " ++ obsoleteMsg cmdOld addon] ∧
    DEPRECATE c p o n addon new arg
      = DEPRECATE_SYS c (DOUBLES p o) (DOUBLES p n) addon new arg := by
  refine ⟨?_, rfl, rfl, ?_, rfl, rfl, rfl⟩
  · cases arg <;> rfl
  · cases arg <;> rfl

/-! ### C9 -/

/-- C9: ARG_1 through ARG_6 expand (ARG_6 shown via isSome), but the
expansions of ARG_7 and ARG_8 fail for every argument text: their bodies
pass eight (respectively nine) arguments - with E duplicated - to the
seven-parameter ARG_6 (respectively eight-parameter ARG_7), so no
successive-selection chain is produced at n = 7 and n = 8. -/
theorem arg_macro_seven_eight_ill_formed :
    (∀ a b : String, ARG_1 [a, b] = some ("((" ++ a ++ ") select (" ++ b ++ "))")) ∧
    (∀ a b c d e f g : String, (ARG_6 [a, b, c, d, e, f, g]).isSome = true) ∧
    (∀ a b c d e f g h : String, ARG_7 [a, b, c, d, e, f, g, h] = none) ∧
    (∀ a b c d e f g h i : String, ARG_8 [a, b, c, d, e, f, g, h, i] = none) := by
  refine ⟨?_, ?_, ?_, ?_⟩ <;> intros <;> rfl

/-! ### C10 -/

/-- C10: after ISNILS(V,D) the variable V holds its old value when it was
defined and D when it was not (so it is always defined afterwards), an
environment in which V is defined is left entirely unchanged, and running
ISNILS(V,D) twice equals running it once. -/
theorem isnils_default_idempotent (env : String → Option SQF) (v w : String) (d x : SQF) :
    (ISNILS env v d) v = some ((env v).getD d) ∧
    ((ISNILS env v d) v).isSome = true ∧
    ISNILS (Function.update env w (some x)) w d = Function.update env w (some x) ∧
    ISNILS (ISNILS env v d) v d = ISNILS env v d := by
  have h1 : (ISNILS env v d) v = some ((env v).getD d) := by
    cases h : env v <;> simp [ISNILS, h]
  refine ⟨h1, ?_, ?_, ?_⟩
  · rw [h1]
    rfl
  · simp [ISNILS]
  · cases h : env v <;> simp [ISNILS, h]

/-! ### C7 -/

/-- C7: macro expansion is deterministic and pure.  For every macro of
script_macros_common.hpp (under any fixed set of preprocessor
definitions), two expansions of a call with identical argument texts
produce identical replacement texts, and that text is exactly the
argument substitution `substFun` applied to the macro's replacement-text
tokens - the expansion relation carries nothing besides the produced
text. -/
theorem macro_expansion_deterministic (c : DebugFlags) (modular thisFileDef : Bool)
    (m : MacroDef) (hm : m ∈ cbaMacroTable c modular thisFileDef)
    (args : List (List String)) (o1 o2 : List String)
    (h1 : ExpandsTo m args o1) (h2 : ExpandsTo m args o2) :
    o1 = o2 ∧ o1 = substFun m.params args m.body := by
  have e1 := substRel_eq_substFun h1.2
  have e2 := substRel_eq_substFun h2.2
  exact ⟨e1.trans e2.symm, e1⟩

/-- Witness for C7: the DOUBLES macro of the table, expanded twice at the
argument texts alpha and beta, both times producing the pasted token
sequence. -/
theorem macro_expansion_deterministic_witness :
    (⟨"DOUBLES", ["var1", "var2"], ["##", "var1", "##", "_", "##", "var2"]⟩ : MacroDef)
        ∈ cbaMacroTable defaultFlags false false ∧
    ExpandsTo ⟨"DOUBLES", ["var1", "var2"], ["##", "var1", "##", "_", "##", "var2"]⟩
      [["alpha"], ["beta"]] ["##", "alpha", "##", "_", "##", "beta"] ∧
    ["##", "alpha", "##", "_", "##", "beta"] = ["##", "alpha", "##", "_", "##", "beta"] ∧
    ["##", "alpha", "##", "_", "##", "beta"]
      = substFun ["var1", "var2"] [["alpha"], ["beta"]]
          ["##", "var1", "##", "_", "##", "var2"] := by
  have hm : (⟨"DOUBLES", ["var1", "var2"], ["##", "var1", "##", "_", "##", "var2"]⟩ : MacroDef)
      ∈ cbaMacroTable defaultFlags false false := by
    unfold cbaMacroTable cbaMacroTableGeneral
    simp
  have hexp : ExpandsTo ⟨"DOUBLES", ["var1", "var2"], ["##", "var1", "##", "_", "##", "var2"]⟩
      [["alpha"], ["beta"]] ["##", "alpha", "##", "_", "##", "beta"] := by
    refine ⟨rfl, ?_⟩
    have h := @substRel_substFun ["var1", "var2"] [["alpha"], ["beta"]] rfl
      ["##", "var1", "##", "_", "##", "var2"]
    simpa [substFun, substTok, paramIndex] using h
  have hmain := macro_expansion_deterministic defaultFlags false false _ hm
    [["alpha"], ["beta"]] _ _ hexp hexp
  exact ⟨hm, hexp, hmain.1, hmain.2⟩

end CBA
